import Mathlib

/-! # Verification of the Azure VM-management sample programs

Shallow embedding of the three Go programs in this repository:
`example.go` (the concurrent variant), `unnamed/part_000` (the
sequential fail-fast variant) and `unnamed/part_001` (the sequential
error-printing variant).

Request-construction code is translated to pure Lean functions on a
`VirtualMachine` record mirroring the SDK struct fields the programs
touch.  The sequence of remote SDK calls a function issues is modelled
as a `List Call`; a `Client` value decides which calls fail, and two
interpreters model the two error-handling styles (`onErrorFail`, which
exits the process, and `printError`, which logs and continues).  The
concurrent `main` of `example.go` is modelled as the set of
interleavings of the two per-VM goroutine traces between the
`sync.WaitGroup` barriers.

Go `int32` arithmetic (the `DiskSizeGB` field) is modelled on `Int`
with an explicit two's-complement wrap, matching Go's defined
wraparound semantics for signed integers. -/

namespace AzureVMSample

/-- Two's-complement reduction of an integer into the `int32` range,
modelling Go's defined wraparound for `int32` addition (`*p += 10` at
`example.go:330`). -/
def int32wrap (z : Int) : Int := (z + 2 ^ 31) % 2 ^ 32 - 2 ^ 31

/-- `z` is representable as a Go `int32`. -/
def inInt32 (z : Int) : Prop := -(2 ^ 31) ≤ z ∧ z < 2 ^ 31

/-! ## Data model

The fields of `compute.VirtualMachine` (and nested structs) that the
programs read or write.  Go pointer fields that every variant
dereferences unconditionally are modelled as plain fields; the fields
the programs nil-check or nil-assign (`DiskSizeGB`, `Tags`,
`DataDisks`, and the trio cleared by `part_000`'s `vmOperations`) are
`Option`s. -/

/-- `compute.ImageReference` as populated by `setVMparameters`. -/
structure ImageReference where
  publisher : String
  offer : String
  sku : String
  version : String
deriving DecidableEq, Repr

/-- `compute.OSDisk`: name, VHD URI, create option and the nil-able
`DiskSizeGB` (`*int32` in Go). -/
structure OSDisk where
  name : String
  vhdURI : String
  createOption : String
  diskSizeGB : Option Int
deriving DecidableEq, Repr

/-- `compute.DataDisk` as built by `attachDataDisk`. -/
structure DataDisk where
  lun : Int
  name : String
  vhdURI : String
  createOption : String
  diskSizeGB : Option Int
deriving DecidableEq, Repr

/-- `compute.StorageProfile`. -/
structure StorageProfile where
  imageReference : Option ImageReference
  osDisk : OSDisk
  dataDisks : Option (List DataDisk)
deriving DecidableEq, Repr

/-- `compute.OSProfile` as populated by `setVMparameters`. -/
structure OSProfile where
  computerName : String
  adminUsername : String
  adminPassword : String
deriving DecidableEq, Repr

/-- `compute.VirtualMachine`, restricted to the fields the repository
reads or writes.  `networkInterfaceID` stands for the single primary
NIC reference `setVMparameters` installs. -/
structure VirtualMachine where
  name : Option String
  id : Option String
  vmType : Option String
  location : Option String
  tags : Option (List (String × String))
  vmSize : String
  storageProfile : StorageProfile
  osProfile : OSProfile
  networkInterfaceID : Option String
  provisioningState : Option String
  instanceView : Option String
  vmID : Option String
deriving DecidableEq, Repr

/-! ## Constants of the variants -/

def location : String := "westus"

/-- `groupName` of `example.go` and `part_000`. -/
def groupNameEx : String := "your-azure-sample-group"

/-- `accountName` of `example.go` and `part_000`. -/
def accountNameEx : String := "golangrocksonazure"

/-- `resourceGroupName` of `part_001`. -/
def resourceGroupName001 : String := "VMsampleResourceGroup"

/-- `accountName` of `part_001`. -/
def accountName001 : String := "mystorageaccount"

def linuxVMname : String := "linuxVM"

def windowsVMname : String := "windowsVM"

/-- `vhdURItemplate` instantiated: `https://%s.blob.core.windows.net/golangcontainer/%s.vhd`. -/
def vhdURI (account vhdName : String) : String :=
  "https://" ++ account ++ ".blob.core.windows.net/golangcontainer/" ++ vhdName ++ ".vhd"

/-- `setVMparameters`: builds the `VirtualMachine` argument for the VM
creation call.  `sz` is the hardware size constant (it differs between
`example.go` and the other two variants); `account` is the package
`accountName`. -/
def setVMparameters (sz account vmName publisher offer sku nicID : String) : VirtualMachine :=
  { name := none
    id := none
    vmType := none
    location := some location
    tags := none
    vmSize := sz
    storageProfile :=
      { imageReference := some { publisher := publisher, offer := offer, sku := sku, version := "latest" }
        osDisk :=
          { name := "osDisk"
            vhdURI := vhdURI account vmName
            createOption := "FromImage"
            diskSizeGB := none }
        dataDisks := none }
    osProfile :=
      { computerName := vmName
        adminUsername := "notadmin"
        adminPassword := "Pa$$w0rd1975" }
    networkInterfaceID := some nicID
    provisioningState := none
    instanceView := none
    vmID := none }

/-! ## The mutating VM operations

Each function below is the payload transformation a VM operation
applies to the (previously fetched) VM object before resubmitting it
via `CreateOrUpdate`.  The Go code mutates the object through a
pointer; here each function returns the mutated object, and in-place
mutation is modelled by threading the result into the next operation. -/

/-- The tag map installed by `updateVM`. -/
def tagsValue : List (String × String) := [("who rocks", "golang"), ("where", "on azure")]

/-- `updateVM` (`example.go:286-294`): overwrites `Tags` and resubmits. -/
def updateVMsubmit (vm : VirtualMachine) : VirtualMachine :=
  { vm with tags := some tagsValue }

/-- The single data disk built by `attachDataDisk`. -/
def dataDiskFor (account vmName : String) : DataDisk :=
  { lun := 0
    name := "dataDisk"
    vhdURI := vhdURI account ("dataDisks-" ++ vmName)
    createOption := "Empty"
    diskSizeGB := some 1 }

/-- `attachDataDisk` (`example.go:296-311`): overwrites
`StorageProfile.DataDisks` with a one-element slice. -/
def attachDataDiskSubmit (account vmName : String) (vm : VirtualMachine) : VirtualMachine :=
  { vm with storageProfile := { vm.storageProfile with dataDisks := some [dataDiskFor account vmName] } }

/-- `detachDataDisks` (`example.go:313-318`): overwrites
`StorageProfile.DataDisks` with the empty slice. -/
def detachDataDisksSubmit (vm : VirtualMachine) : VirtualMachine :=
  { vm with storageProfile := { vm.storageProfile with dataDisks := some [] } }

/-- Helper: write `StorageProfile.OsDisk.DiskSizeGB`. -/
def setOSdiskSize (vm : VirtualMachine) (s : Int) : VirtualMachine :=
  { vm with storageProfile :=
      { vm.storageProfile with osDisk := { vm.storageProfile.osDisk with diskSizeGB := some s } } }

/-- `example.go:322-324`: `if vm.StorageProfile.OsDisk.DiskSizeGB == nil`
then set it to `0`. -/
def normalizeOSdiskSize (vm : VirtualMachine) : VirtualMachine :=
  if vm.storageProfile.osDisk.diskSizeGB = none then setOSdiskSize vm 0 else vm

/-- `example.go:327-329`: `if *...DiskSizeGB <= 0` then set `256`.
(The deref is reached only after `normalizeOSdiskSize`, so the field is
non-nil there; `getD 0` realises the deref.) -/
def defaultOSdiskSize (vm : VirtualMachine) : VirtualMachine :=
  if vm.storageProfile.osDisk.diskSizeGB.getD 0 ≤ 0 then setOSdiskSize vm 256 else vm

/-- `example.go:330`: `*...DiskSizeGB += 10`, an `int32` addition. -/
def incrementOSdiskSize (vm : VirtualMachine) : VirtualMachine :=
  setOSdiskSize vm (int32wrap (vm.storageProfile.osDisk.diskSizeGB.getD 0 + 10))

/-- The VM object `updateOSdiskSize` submits in its final
`CreateOrUpdate` (`example.go:320-333`), given the object it was
passed: nil-normalisation, then the `≤ 0 ↦ 256` default, then `+= 10`. -/
def updateOSdiskSizeSubmit (vm : VirtualMachine) : VirtualMachine :=
  incrementOSdiskSize (defaultOSdiskSize (normalizeOSdiskSize vm))

/-- The successive values `updateOSdiskSize` stores in
`DiskSizeGB` during one call: after nil-normalisation, after the 256
default, after the `+= 10` increment. -/
def osDiskSizeProgression (vm : VirtualMachine) : List Int :=
  [(normalizeOSdiskSize vm).storageProfile.osDisk.diskSizeGB.getD (-1),
   (defaultOSdiskSize (normalizeOSdiskSize vm)).storageProfile.osDisk.diskSizeGB.getD (-1),
   (updateOSdiskSizeSubmit vm).storageProfile.osDisk.diskSizeGB.getD (-1)]

/-- `part_000`'s `vmOperations` (`part_000:273-275`) clears
`ProvisioningState`, `InstanceView` and `VMID` on the fetched object
before running the battery. -/
def scrubForUpdate (vm : VirtualMachine) : VirtualMachine :=
  { vm with provisioningState := none, instanceView := none, vmID := none }

/-! ## Remote calls -/

/-- One remote SDK call, with the request data the claims need. -/
inductive Call where
  | groupCreateOrUpdate (groupName : String)
  | storageAccountCreate (groupName accountName : String)
  | vnetCreateOrUpdate (groupName vnetName : String)
  | subnetCreateOrUpdate (groupName vnetName subnetName : String)
  | subnetGet (groupName vnetName subnetName : String)
  | pipCreateOrUpdate (groupName ipName dnsLabel : String)
  | pipGet (groupName ipName : String)
  | nicCreateOrUpdate (groupName nicName : String)
  | nicGet (groupName nicName : String)
  | vmCreateOrUpdate (groupName vmName : String) (vm : VirtualMachine)
  | vmGet (groupName vmName : String)
  | vmDeallocate (groupName vmName : String)
  | vmStart (groupName vmName : String)
  | vmRestart (groupName vmName : String)
  | vmPowerOff (groupName vmName : String)
  | vmListAll
  | vmDelete (groupName vmName : String)
  | groupDelete (groupName : String)
deriving DecidableEq, Repr

/-- A mocked remote endpoint: decides which calls return an error. -/
structure Client where
  fails : Call → Bool

/-- The DNS label `createPIPandNIC` derives
(`example.go:178`): `azuresample-` ++ the first 5 characters of the
machine name, lower-cased.  Go slices `machine[:5]` unguarded and
panics when the name is shorter; the panic is modelled as `none`. -/
def domainNameLabel (machine : String) : Option String :=
  if 5 ≤ machine.length then some ("azuresample-" ++ (machine.take 5).toLower) else none

/-- The four PIP/NIC calls `createPIPandNIC` issues
(`example.go:170-219`), once the DNS label has been derived. -/
def pipNicCalls (g machine lbl : String) : List Call :=
  [Call.pipCreateOrUpdate g ("pip-" ++ machine) lbl,
   Call.pipGet g ("pip-" ++ machine),
   Call.nicCreateOrUpdate g ("nic-" ++ machine),
   Call.nicGet g ("nic-" ++ machine)]

/-- `createPIPandNIC`: `none` models the out-of-range slice panic on a
machine name shorter than 5 characters, which happens while building
`pipParameters`, before any call is issued. -/
def createPIPandNICcalls (g machine : String) : Option (List Call) :=
  (domainNameLabel machine).map (pipNicCalls g machine)

/-- `createVM` (`example.go:151-166`): PIP/NIC provisioning followed by
the VM `CreateOrUpdate` with the `setVMparameters` payload. -/
def createVMcalls (sz g account v publisher offer sku nicID : String) : Option (List Call) :=
  (createPIPandNICcalls g v).map
    (fun pn => pn ++ [Call.vmCreateOrUpdate g v (setVMparameters sz account v publisher offer sku nicID)])

/-- `createNeededResources` (`example.go:94-148`): resource group,
storage account, virtual network, subnet, then the subnet `Get`. -/
def createNeededResourcesCalls (g account : String) : List Call :=
  [Call.groupCreateOrUpdate g,
   Call.storageAccountCreate g account,
   Call.vnetCreateOrUpdate g "vNet",
   Call.subnetCreateOrUpdate g "vNet" "subnet",
   Call.subnetGet g "vNet" "subnet"]

/-- The eight calls of the per-VM operation battery after the initial
`Get` (`example.go:269-275`): tag, attach, detach, the
deallocate/resize pair, start, restart, stop.  The payloads chain the
in-place mutations of the shared VM object. -/
def batteryOps (g account v : String) (vm0 : VirtualMachine) : List Call :=
  let vm1 := updateVMsubmit vm0
  let vm2 := attachDataDiskSubmit account v vm1
  let vm3 := detachDataDisksSubmit vm2
  let vm4 := updateOSdiskSizeSubmit vm3
  [Call.vmCreateOrUpdate g v vm1,
   Call.vmCreateOrUpdate g v vm2,
   Call.vmCreateOrUpdate g v vm3,
   Call.vmDeallocate g v,
   Call.vmCreateOrUpdate g v vm4,
   Call.vmStart g v,
   Call.vmRestart g v,
   Call.vmPowerOff g v]

/-- The full per-VM operation battery of `vmOperations`
(`example.go:264-276`): the `Get` followed by `batteryOps` on the
fetched object `vm0`. -/
def batteryCalls (g account v : String) (vm0 : VirtualMachine) : List Call :=
  Call.vmGet g v :: batteryOps g account v vm0

/-- The two calls `updateOSdiskSize` issues (`example.go:325,331`):
`Deallocate`, then the `CreateOrUpdate` resubmitting the resized VM. -/
def updateOSdiskSizeCalls (g v : String) (vm : VirtualMachine) : List Call :=
  [Call.vmDeallocate g v, Call.vmCreateOrUpdate g v (updateOSdiskSizeSubmit vm)]

/-! ## Interpreters for the two error-handling styles -/

/-- Fail-fast execution (`onErrorFail`, `example.go:408-413`): each
call is issued in order; the first failing call is still issued, its
error is printed and the process exits with code 1.  Returns the calls
actually issued and `true` iff the sequence completed (i.e. `os.Exit(1)`
did not happen). -/
def runFatal (cl : Client) : List Call → List Call × Bool
  | [] => ([], true)
  | c :: rest =>
      if cl.fails c then ([c], false)
      else
        let r := runFatal cl rest
        (c :: r.1, r.2)

/-- `part_001`'s `vmOperations` (`part_001:233-290`) under a mocked
client: if the initial `Get` fails the function returns the error
(printed by `main`'s `printError`) and issues nothing else for this VM;
otherwise every remaining operation is issued unconditionally and each
failing one is printed by `printError` and execution continues.
Returns the issued calls and the failed calls whose errors were
printed. -/
def vmOperations001 (cl : Client) (vm0 : VirtualMachine) (v : String) : List Call × List Call :=
  let getCall := Call.vmGet resourceGroupName001 v
  if cl.fails getCall then ([getCall], [getCall])
  else
    let rest := batteryOps resourceGroupName001 accountName001 v vm0
    (getCall :: rest, rest.filter cl.fails)

/-! ## Environment-variable handling -/

/-- The four required environment variables. -/
structure EnvVars where
  tenantID : String
  clientID : String
  clientSecret : String
  subscriptionID : String
deriving DecidableEq, Repr

/-- `part_001`'s `checkEnvVar` (`part_001:136-147`) collects the names
of the empty variables.  Go iterates the credentials map in
unspecified order; a fixed order is used here, and the claims depend
only on membership. -/
def missingVars (env : EnvVars) : List String :=
  (if env.clientID = "" then ["AZURE_CLIENT_ID"] else []) ++
  (if env.clientSecret = "" then ["AZURE_CLIENT_SECRET"] else []) ++
  (if env.subscriptionID = "" then ["AZURE_SUBSCRIPTION_ID"] else []) ++
  (if env.tenantID = "" then ["AZURE_TENANT_ID"] else [])

/-- `checkEnvVar` returns an error naming the missing variables iff
some variable is empty. -/
def checkEnvVar (env : EnvVars) : Option (List String) :=
  if missingVars env = [] then none else some (missingVars env)

/-- `part_000`'s `init` (`part_000:45-58`): four `getEnvVarOrExit`
calls in order; the first empty variable makes the process print
`Missing environment variable <name>` and `os.Exit(1)`.  The token
acquisition in between is local library code that issues no remote
call. -/
def init000 (env : EnvVars) : Except (Nat × String) Unit :=
  if env.subscriptionID = "" then Except.error (1, "Missing environment variable AZURE_SUBSCRIPTION_ID")
  else if env.tenantID = "" then Except.error (1, "Missing environment variable AZURE_TENANT_ID")
  else if env.clientID = "" then Except.error (1, "Missing environment variable AZURE_CLIENT_ID")
  else if env.clientSecret = "" then Except.error (1, "Missing environment variable AZURE_CLIENT_SECRET")
  else Except.ok ()

/-- `example.go`'s `init` (`example.go:50-57`) checks
`AZURE_SUBSCRIPTION_ID` itself via `getEnvVarOrExit`
(`example.go:397-405`; the Go message additionally wraps the name in
single quotes, elided here); the other three variables are consumed by
the external `utils.GetAuthorizer`. -/
def initExampleSubscriptionCheck (env : EnvVars) : Except (Nat × String) Unit :=
  if env.subscriptionID = "" then
    Except.error (1, "Missing environment variable AZURE_SUBSCRIPTION_ID")
  else Except.ok ()

/-- Abstract environment data a run depends on: the VM object the
mocked `Get` returns for each name, and the NIC id the mocked
interfaces `Get` returns. -/
structure Env where
  fetched : String → VirtualMachine
  nicID : String → String

/-- Outcome of a `part_001` process run: exit code, the missing
environment variables named in printed diagnostics, and the remote
calls issued. -/
structure RunOutcome where
  exitCode : Nat
  printedMissing : List String
  calls : List Call

/-- Success-path remote calls of `part_001`'s `main`
(`part_001:32-80`): creations, the two sequential per-VM pipelines,
then the listing.  Teardown is commented out in this variant. -/
def part001successCalls (e : Env) : List Call :=
  createNeededResourcesCalls resourceGroupName001 accountName001 ++
  (createVMcalls "Standard_DS1" resourceGroupName001 accountName001 linuxVMname
      "Canonical" "UbuntuServer" "16.04.0-LTS" (e.nicID linuxVMname)).getD [] ++
  batteryCalls resourceGroupName001 accountName001 linuxVMname (e.fetched linuxVMname) ++
  (createVMcalls "Standard_DS1" resourceGroupName001 accountName001 windowsVMname
      "MicrosoftWindowsServerEssentials" "WindowsServerEssentials" "WindowsServerEssentials"
      (e.nicID windowsVMname)).getD [] ++
  batteryCalls resourceGroupName001 accountName001 windowsVMname (e.fetched windowsVMname) ++
  [Call.vmListAll]

/-- `part_001`'s `main` outcome: when `checkEnvVar` reports missing
variables, `setup` returns the error, `main` prints it and returns —
Go then exits with status 0 and no remote call was issued.  Otherwise
the pipeline proceeds. -/
def part001mainOutcome (env : EnvVars) (e : Env) : RunOutcome :=
  match checkEnvVar env with
  | some ms => { exitCode := 0, printedMissing := ms, calls := [] }
  | none => { exitCode := 0, printedMissing := [], calls := part001successCalls e }

/-- Success-path remote calls of `part_000`'s sequential `main`
(`part_000:60-89`): creations, the two sequential per-VM pipelines
(each battery runs on the scrubbed fetched object), listing, the two
VM deletions, the explicit group deletion, and the deferred group
deletion from `part_000:63`. -/
def part000successCalls (e : Env) : List Call :=
  createNeededResourcesCalls groupNameEx accountNameEx ++
  (createVMcalls "Standard_DS1" groupNameEx accountNameEx linuxVMname
      "Canonical" "UbuntuServer" "16.04.0-LTS" (e.nicID linuxVMname)).getD [] ++
  batteryCalls groupNameEx accountNameEx linuxVMname (scrubForUpdate (e.fetched linuxVMname)) ++
  (createVMcalls "Standard_DS1" groupNameEx accountNameEx windowsVMname
      "MicrosoftWindowsServerEssentials" "WindowsServerEssentials" "WindowsServerEssentials"
      (e.nicID windowsVMname)).getD [] ++
  batteryCalls groupNameEx accountNameEx windowsVMname (scrubForUpdate (e.fetched windowsVMname)) ++
  [Call.vmListAll,
   Call.vmDelete groupNameEx linuxVMname,
   Call.vmDelete groupNameEx windowsVMname,
   Call.groupDelete groupNameEx,
   Call.groupDelete groupNameEx]

/-- A `part_000` process run: `init` runs before `main`; if `init`
exits (missing variable), no remote call is ever issued. -/
def part000run (env : EnvVars) (e : Env) : Except (Nat × String) (List Call) :=
  (init000 env).map (fun _ => part000successCalls e)

/-! ## Sample data for witnesses -/

/-- A concrete fetched VM object with no recorded OS-disk size. -/
def vmSample : VirtualMachine :=
  { name := some linuxVMname
    id := some "vm-id"
    vmType := some "Microsoft.Compute/virtualMachines"
    location := some location
    tags := none
    vmSize := "Standard_DS1_v2"
    storageProfile :=
      { imageReference := none
        osDisk :=
          { name := "osDisk"
            vhdURI := vhdURI accountNameEx linuxVMname
            createOption := "FromImage"
            diskSizeGB := none }
        dataDisks := none }
    osProfile :=
      { computerName := linuxVMname
        adminUsername := "notadmin"
        adminPassword := "Pa$$w0rd1975" }
    networkInterfaceID := some "nic-id"
    provisioningState := some "Succeeded"
    instanceView := none
    vmID := none }

/-- `vmSample` with a concrete recorded OS-disk size. -/
def vmWithSize (s : Int) : VirtualMachine := setOSdiskSize vmSample s

/-- A client on which no call fails. -/
def clOK : Client := ⟨fun _ => false⟩

/-! ## Basic payload lemmas -/

theorem setOSdiskSize_diskSizeGB (vm : VirtualMachine) (s : Int) :
    (setOSdiskSize vm s).storageProfile.osDisk.diskSizeGB = some s := rfl

theorem setOSdiskSize_setOSdiskSize (vm : VirtualMachine) (a b : Int) :
    setOSdiskSize (setOSdiskSize vm a) b = setOSdiskSize vm b := rfl

/-- `updateOSdiskSize`'s submitted object is the input object with just
the disk size rewritten to the default-then-increment value, computed
in `int32` arithmetic. -/
theorem resizeSubmit_eq_set (vm : VirtualMachine) :
    updateOSdiskSizeSubmit vm =
      setOSdiskSize vm (int32wrap ((if vm.storageProfile.osDisk.diskSizeGB.getD 0 ≤ 0 then 256
                                    else vm.storageProfile.osDisk.diskSizeGB.getD 0) + 10)) := by
  unfold updateOSdiskSizeSubmit incrementOSdiskSize defaultOSdiskSize normalizeOSdiskSize
  rcases h : vm.storageProfile.osDisk.diskSizeGB with _ | s
  · simp [h, setOSdiskSize_diskSizeGB, setOSdiskSize_setOSdiskSize]
  · by_cases hs : s ≤ 0 <;>
      simp [h, hs, setOSdiskSize_diskSizeGB, setOSdiskSize_setOSdiskSize]

theorem resizeSubmit_diskSizeGB (vm : VirtualMachine) :
    (updateOSdiskSizeSubmit vm).storageProfile.osDisk.diskSizeGB =
      some (int32wrap ((if vm.storageProfile.osDisk.diskSizeGB.getD 0 ≤ 0 then 256
                        else vm.storageProfile.osDisk.diskSizeGB.getD 0) + 10)) := by
  rw [resizeSubmit_eq_set]; rfl

theorem updateVMsubmit_tags (vm : VirtualMachine) :
    (updateVMsubmit vm).tags = some tagsValue := rfl

theorem attach_tags (account v : String) (vm : VirtualMachine) :
    (attachDataDiskSubmit account v vm).tags = vm.tags := rfl

theorem detach_tags (vm : VirtualMachine) : (detachDataDisksSubmit vm).tags = vm.tags := rfl

theorem resizeSubmit_tags (vm : VirtualMachine) :
    (updateOSdiskSizeSubmit vm).tags = vm.tags := by rw [resizeSubmit_eq_set]; rfl

theorem setVMparameters_tags (sz account v pub off sku nic : String) :
    (setVMparameters sz account v pub off sku nic).tags = none := rfl

theorem int32wrap_eq_self {z : Int} (h : inInt32 z) : int32wrap z = z := by
  rcases h with ⟨h1, h2⟩
  unfold int32wrap
  rw [Int.emod_eq_of_lt (by omega) (by omega)]
  omega

theorem int32wrap_266 : int32wrap 266 = 266 := by decide

/-! ## Claim theorems -/

/-- C1: for every VM object passed to `updateOSdiskSize`, the OS-disk
size submitted in the final `CreateOrUpdate` equals
`(previous size if > 0 else 256) + 10` in the program's `int32`
arithmetic (first conjunct; `DiskSizeGB` is an `int32`, so every actual
VM object is covered); when the addition does not overflow the plain
reading holds (second conjunct); and for a fetched size that is absent
(nil) or `0`, the first resize drives the stored size through the
sequence `0 → 256 → 266` (third conjunct). -/
theorem c1_osdisk_resize_size :
    (∀ vm : VirtualMachine,
        (updateOSdiskSizeSubmit vm).storageProfile.osDisk.diskSizeGB =
          some (int32wrap ((if 0 < vm.storageProfile.osDisk.diskSizeGB.getD 0
                            then vm.storageProfile.osDisk.diskSizeGB.getD 0 else 256) + 10))) ∧
    (∀ (vm : VirtualMachine) (s : Int),
        vm.storageProfile.osDisk.diskSizeGB = some s → 0 < s → s + 10 < 2 ^ 31 →
        (updateOSdiskSizeSubmit vm).storageProfile.osDisk.diskSizeGB = some (s + 10)) ∧
    (∀ vm : VirtualMachine,
        vm.storageProfile.osDisk.diskSizeGB = none ∨
          vm.storageProfile.osDisk.diskSizeGB = some 0 →
        osDiskSizeProgression vm = [0, 256, 266]) := by
  refine ⟨?_, ?_, ?_⟩
  · intro vm
    rw [resizeSubmit_diskSizeGB]
    rcases le_or_lt (vm.storageProfile.osDisk.diskSizeGB.getD 0) 0 with h | h
    · rw [if_pos h, if_neg (by omega)]
    · rw [if_neg (by omega), if_pos h]
  · intro vm s hs h0 hlt
    rw [resizeSubmit_diskSizeGB, hs]
    simp only [Option.getD_some, if_neg (by omega : ¬ s ≤ 0)]
    rw [int32wrap_eq_self ⟨by omega, hlt⟩]
  · intro vm h
    have hn : (normalizeOSdiskSize vm).storageProfile.osDisk.diskSizeGB = some 0 := by
      rcases h with h | h <;> simp [normalizeOSdiskSize, h, setOSdiskSize_diskSizeGB]
    have hd : (defaultOSdiskSize (normalizeOSdiskSize vm)).storageProfile.osDisk.diskSizeGB
        = some 256 := by
      simp [defaultOSdiskSize, hn, setOSdiskSize_diskSizeGB]
    have hr : (updateOSdiskSizeSubmit vm).storageProfile.osDisk.diskSizeGB = some 266 := by
      rw [resizeSubmit_diskSizeGB]
      rcases h with h | h <;> simp [h, int32wrap_266]
    simp [osDiskSizeProgression, hn, hd, hr, updateOSdiskSizeSubmit]
    rw [show incrementOSdiskSize (defaultOSdiskSize (normalizeOSdiskSize vm))
          = updateOSdiskSizeSubmit vm from rfl, hr]
    rfl

/-- Witness for C1 at a VM with recorded size `100` (second conjunct)
and at `vmSample`, whose fetched size is nil (third conjunct). -/
theorem c1_osdisk_resize_size_witness :
    ((vmWithSize 100).storageProfile.osDisk.diskSizeGB = some 100 ∧
      (0 : Int) < 100 ∧ (100 : Int) + 10 < 2 ^ 31) ∧
    (updateOSdiskSizeSubmit (vmWithSize 100)).storageProfile.osDisk.diskSizeGB = some 110 ∧
    osDiskSizeProgression vmSample = [0, 256, 266] :=
  ⟨⟨rfl, by decide, by decide⟩,
   c1_osdisk_resize_size.2.1 (vmWithSize 100) 100 rfl (by decide) (by decide),
   c1_osdisk_resize_size.2.2 vmSample (Or.inl rfl)⟩

/-- C2: in every variant the OS-disk resize issues `Deallocate` before
the `CreateOrUpdate` that resubmits the VM with the new size.  For the
fail-fast variants (`example.go:320-333`, `part_000:328-341`) the
issued trace is either `[Deallocate]` (deallocation failed, process
exited) or `[Deallocate, CreateOrUpdate]`, for any client; for
`part_001` the battery trace is either `[Get]` or the fixed list in
which the `Deallocate` (position 5) precedes the resize
`CreateOrUpdate` (position 6), for any client. -/
theorem c2_dealloc_before_resize :
    (∀ (cl : Client) (g v : String) (vm : VirtualMachine),
        (runFatal cl (updateOSdiskSizeCalls g v vm)).1 = [Call.vmDeallocate g v] ∨
        (runFatal cl (updateOSdiskSizeCalls g v vm)).1 =
          [Call.vmDeallocate g v, Call.vmCreateOrUpdate g v (updateOSdiskSizeSubmit vm)]) ∧
    (∀ (cl : Client) (vm0 : VirtualMachine) (v : String),
        (vmOperations001 cl vm0 v).1 = [Call.vmGet resourceGroupName001 v] ∨
        (vmOperations001 cl vm0 v).1 =
          Call.vmGet resourceGroupName001 v ::
            batteryOps resourceGroupName001 accountName001 v vm0) := by
  constructor
  · intro cl g v vm
    unfold updateOSdiskSizeCalls
    by_cases h1 : cl.fails (Call.vmDeallocate g v)
    · left; simp [runFatal, h1]
    · right
      by_cases h2 : cl.fails (Call.vmCreateOrUpdate g v (updateOSdiskSizeSubmit vm)) <;>
        simp [runFatal, h1, h2]
  · intro cl vm0 v
    by_cases h : cl.fails (Call.vmGet resourceGroupName001 v)
    · left; simp [vmOperations001, h]
    · right; simp [vmOperations001, h]

/-- C8: for every machine name shorter than 5 characters,
`createPIPandNIC` faults while deriving the DNS label from the first 5
characters of the name — there is no guard; the fault (modelled as
`none`) happens before any call is issued. -/
theorem c8_short_name_faults (g machine : String) (h : machine.length < 5) :
    createPIPandNICcalls g machine = none ∧ domainNameLabel machine = none := by
  have h5 : ¬ 5 ≤ machine.length := by omega
  constructor <;> simp [createPIPandNICcalls, domainNameLabel, h5]

/-- Witness for C8 at the 3-character machine name `abc`. -/
theorem c8_short_name_faults_witness :
    "abc".length < 5 ∧
    createPIPandNICcalls groupNameEx "abc" = none ∧ domainNameLabel "abc" = none :=
  ⟨by decide, c8_short_name_faults groupNameEx "abc" (by decide)⟩

/-! ## Frame properties of the mutating operations (C9) -/

/-- `u` agrees with `vm` on every `VirtualMachine` field except `tags`. -/
def SameExceptTags (u vm : VirtualMachine) : Prop :=
  u.name = vm.name ∧ u.id = vm.id ∧ u.vmType = vm.vmType ∧ u.location = vm.location ∧
  u.vmSize = vm.vmSize ∧ u.storageProfile = vm.storageProfile ∧ u.osProfile = vm.osProfile ∧
  u.networkInterfaceID = vm.networkInterfaceID ∧ u.provisioningState = vm.provisioningState ∧
  u.instanceView = vm.instanceView ∧ u.vmID = vm.vmID

/-- `u` agrees with `vm` on every field except
`storageProfile.dataDisks`. -/
def SameExceptDataDisks (u vm : VirtualMachine) : Prop :=
  u.name = vm.name ∧ u.id = vm.id ∧ u.vmType = vm.vmType ∧ u.location = vm.location ∧
  u.tags = vm.tags ∧ u.vmSize = vm.vmSize ∧
  u.storageProfile.imageReference = vm.storageProfile.imageReference ∧
  u.storageProfile.osDisk = vm.storageProfile.osDisk ∧
  u.osProfile = vm.osProfile ∧ u.networkInterfaceID = vm.networkInterfaceID ∧
  u.provisioningState = vm.provisioningState ∧ u.instanceView = vm.instanceView ∧
  u.vmID = vm.vmID

/-- `u` agrees with `vm` on every field except
`storageProfile.osDisk.diskSizeGB`. -/
def SameExceptOSdiskSize (u vm : VirtualMachine) : Prop :=
  u.name = vm.name ∧ u.id = vm.id ∧ u.vmType = vm.vmType ∧ u.location = vm.location ∧
  u.tags = vm.tags ∧ u.vmSize = vm.vmSize ∧
  u.storageProfile.imageReference = vm.storageProfile.imageReference ∧
  u.storageProfile.dataDisks = vm.storageProfile.dataDisks ∧
  u.storageProfile.osDisk.name = vm.storageProfile.osDisk.name ∧
  u.storageProfile.osDisk.vhdURI = vm.storageProfile.osDisk.vhdURI ∧
  u.storageProfile.osDisk.createOption = vm.storageProfile.osDisk.createOption ∧
  u.osProfile = vm.osProfile ∧ u.networkInterfaceID = vm.networkInterfaceID ∧
  u.provisioningState = vm.provisioningState ∧ u.instanceView = vm.instanceView ∧
  u.vmID = vm.vmID

/-- C9: every mutating VM operation resubmits the VM object it was
handed with only its targeted field overwritten — `updateVM` changes
only `Tags`, `attachDataDisk` and `detachDataDisks` change only
`StorageProfile.DataDisks`, and `updateOSdiskSize` changes only
`StorageProfile.OsDisk.DiskSizeGB`; every other field of the submitted
object equals the corresponding field of the object passed in. -/
theorem c9_frame_effects (account v : String) (vm : VirtualMachine) :
    (SameExceptTags (updateVMsubmit vm) vm ∧
      (updateVMsubmit vm).tags = some tagsValue) ∧
    (SameExceptDataDisks (attachDataDiskSubmit account v vm) vm ∧
      (attachDataDiskSubmit account v vm).storageProfile.dataDisks =
        some [dataDiskFor account v]) ∧
    (SameExceptDataDisks (detachDataDisksSubmit vm) vm ∧
      (detachDataDisksSubmit vm).storageProfile.dataDisks = some []) ∧
    (SameExceptOSdiskSize (updateOSdiskSizeSubmit vm) vm ∧
      (updateOSdiskSizeSubmit vm).storageProfile.osDisk.diskSizeGB =
        some (int32wrap ((if vm.storageProfile.osDisk.diskSizeGB.getD 0 ≤ 0 then 256
                          else vm.storageProfile.osDisk.diskSizeGB.getD 0) + 10))) := by
  refine ⟨⟨?_, rfl⟩, ⟨?_, rfl⟩, ⟨?_, rfl⟩, ⟨?_, resizeSubmit_diskSizeGB vm⟩⟩
  · exact ⟨rfl, rfl, rfl, rfl, rfl, rfl, rfl, rfl, rfl, rfl, rfl⟩
  · exact ⟨rfl, rfl, rfl, rfl, rfl, rfl, rfl, rfl, rfl, rfl, rfl, rfl, rfl⟩
  · exact ⟨rfl, rfl, rfl, rfl, rfl, rfl, rfl, rfl, rfl, rfl, rfl, rfl, rfl⟩
  · rw [resizeSubmit_eq_set]
    exact ⟨rfl, rfl, rfl, rfl, rfl, rfl, rfl, rfl, rfl, rfl, rfl, rfl, rfl, rfl, rfl, rfl⟩

/-! ## C10: repeated resize and the int32 boundary -/

/-- A fetched VM whose recorded OS-disk size is the largest `int32`
value. -/
def vmMaxInt32 : VirtualMachine := vmWithSize 2147483647

/-- C10 counterexample: at the concrete recorded size
`s = 2147483647 > 0` the first application of `updateOSdiskSize` does
not submit `s + 10`: the `int32` increment wraps to `-2147483639`, and
the second application — the wrapped value being `≤ 0` — re-applies the
256 default and submits `266`, not `s + 20`.  This falsifies both the
claimed submitted sizes and the parenthetical "the default is never
re-applied after the first resize". -/
theorem c10_counterexample :
    (vmMaxInt32.storageProfile.osDisk.diskSizeGB = some 2147483647 ∧
      (0 : Int) < 2147483647) ∧
    (updateOSdiskSizeSubmit vmMaxInt32).storageProfile.osDisk.diskSizeGB =
      some (-2147483639) ∧
    (updateOSdiskSizeSubmit vmMaxInt32).storageProfile.osDisk.diskSizeGB ≠
      some (2147483647 + 10) ∧
    (updateOSdiskSizeSubmit (updateOSdiskSizeSubmit vmMaxInt32)).storageProfile.osDisk.diskSizeGB =
      some 266 ∧
    (updateOSdiskSizeSubmit (updateOSdiskSizeSubmit vmMaxInt32)).storageProfile.osDisk.diskSizeGB ≠
      some (2147483647 + 20) := by
  refine ⟨⟨rfl, by decide⟩, ?_, ?_, ?_, ?_⟩ <;> decide

/-- C10 (amended): `updateOSdiskSize` mutates the caller's VM object in
place (modelled by threading the submitted object into the next
application) and applies the 256 default exactly when the recorded size
is `≤ 0`.  For any recorded size `s` with `0 < s` and `s + 20 < 2^31`
(no `int32` overflow), one application submits `s + 10` and a second
application to the same object submits `s + 20`; when the recorded size
is `≤ 0` the default is applied and `266` is submitted.  (When the
increment overflows `int32` to a non-positive value, the default IS
re-applied on the next call — see the counterexample.) -/
theorem c10_amended (vm : VirtualMachine) (s : Int)
    (h : vm.storageProfile.osDisk.diskSizeGB = some s) (h0 : 0 < s)
    (hlt : s + 20 < 2 ^ 31) :
    (updateOSdiskSizeSubmit vm).storageProfile.osDisk.diskSizeGB = some (s + 10) ∧
    (updateOSdiskSizeSubmit (updateOSdiskSizeSubmit vm)).storageProfile.osDisk.diskSizeGB =
      some (s + 20) ∧
    (∀ (u : VirtualMachine) (z : Int),
        u.storageProfile.osDisk.diskSizeGB = some z → z ≤ 0 →
        (updateOSdiskSizeSubmit u).storageProfile.osDisk.diskSizeGB = some 266) := by
  have first : (updateOSdiskSizeSubmit vm).storageProfile.osDisk.diskSizeGB = some (s + 10) := by
    rw [resizeSubmit_diskSizeGB, h]
    simp only [Option.getD_some, if_neg (by omega : ¬ s ≤ 0)]
    rw [int32wrap_eq_self ⟨by omega, by omega⟩]
  refine ⟨first, ?_, ?_⟩
  · rw [resizeSubmit_diskSizeGB, first]
    simp only [Option.getD_some, if_neg (by omega : ¬ s + 10 ≤ 0)]
    rw [show s + 10 + 10 = s + 20 by omega, int32wrap_eq_self ⟨by omega, by omega⟩]
  · intro u z hu hz
    rw [resizeSubmit_diskSizeGB, hu]
    simp only [Option.getD_some, if_pos hz]
    exact congrArg some int32wrap_266

/-- Witness for C10 (amended) at recorded size `100`: the two
applications submit `110` then `120`. -/
theorem c10_amended_witness :
    ((vmWithSize 100).storageProfile.osDisk.diskSizeGB = some 100 ∧
      (0 : Int) < 100 ∧ (100 : Int) + 20 < 2 ^ 31) ∧
    ((updateOSdiskSizeSubmit (vmWithSize 100)).storageProfile.osDisk.diskSizeGB =
        some (100 + 10) ∧
      (updateOSdiskSizeSubmit
          (updateOSdiskSizeSubmit (vmWithSize 100))).storageProfile.osDisk.diskSizeGB =
        some (100 + 20) ∧
      (∀ (u : VirtualMachine) (z : Int),
          u.storageProfile.osDisk.diskSizeGB = some z → z ≤ 0 →
          (updateOSdiskSizeSubmit u).storageProfile.osDisk.diskSizeGB = some 266)) :=
  ⟨⟨rfl, by decide, by decide⟩,
   c10_amended (vmWithSize 100) 100 rfl (by decide) (by decide)⟩

/-! ## C6: failure handling across the variants -/

/-- A client on which exactly the `Start` call of the linux battery in
`part_001` fails. -/
def clFailStart : Client := ⟨fun c => c == Call.vmStart resourceGroupName001 linuxVMname⟩

/-- A client on which exactly the initial `Get` of the linux battery in
`part_001` fails. -/
def clFailGet : Client := ⟨fun c => c == Call.vmGet resourceGroupName001 linuxVMname⟩

/-- C6 counterexample: in the error-printing variant (`part_001`), when
the initial `Get` — the first operation of the per-VM battery — fails,
its error is printed, but the remaining operations of the battery are
NOT attempted (the issued trace is just the `Get`; e.g. the `Start`
call never appears), contradicting the claim that after a failed
individual VM operation the remaining operations are still attempted. -/
theorem c6_counterexample :
    clFailGet.fails (Call.vmGet resourceGroupName001 linuxVMname) = true ∧
    Call.vmGet resourceGroupName001 linuxVMname ∈
      (vmOperations001 clFailGet vmSample linuxVMname).2 ∧
    (vmOperations001 clFailGet vmSample linuxVMname).1 =
      [Call.vmGet resourceGroupName001 linuxVMname] ∧
    Call.vmStart resourceGroupName001 linuxVMname ∉
      (vmOperations001 clFailGet vmSample linuxVMname).1 := by
  refine ⟨by decide, by decide, by decide, by decide⟩

/-- C6 (amended): a remote call failure terminates the process in the
variants using `onErrorFail` (`example.go`, `part_000`): under any
client, execution of a call sequence stops at the first failing call
(no later call is issued) and the process exits — first conjunct.  In
the one error-printing variant (`part_001`), provided the initial `Get`
of the battery succeeds, every remaining operation of the battery is
issued regardless of which of them fail, and every failing operation's
error is printed — second conjunct.  A failure of the initial `Get`
itself is printed but aborts that VM's battery (see the
counterexample). -/
theorem c6_amended :
    (∀ (cl : Client) (pre : List Call) (c : Call) (post : List Call),
        (∀ x ∈ pre, cl.fails x = false) → cl.fails c = true →
        runFatal cl (pre ++ c :: post) = (pre ++ [c], false)) ∧
    (∀ (cl : Client) (vm0 : VirtualMachine) (v : String),
        cl.fails (Call.vmGet resourceGroupName001 v) = false →
        (vmOperations001 cl vm0 v).1 =
          batteryCalls resourceGroupName001 accountName001 v vm0 ∧
        ∀ c ∈ batteryOps resourceGroupName001 accountName001 v vm0,
          cl.fails c = true → c ∈ (vmOperations001 cl vm0 v).2) := by
  constructor
  · intro cl pre c post hpre hc
    induction pre with
    | nil => simp [runFatal, hc]
    | cons a as ih =>
        have ha : cl.fails a = false := hpre a (by simp)
        have ih2 := ih fun x hx => hpre x (by simp [hx])
        simp [runFatal, ha, ih2]
  · intro cl vm0 v hget
    refine ⟨by simp [vmOperations001, hget, batteryCalls], ?_⟩
    intro c hc hfail
    simp only [vmOperations001, hget, Bool.false_eq_true, if_false]
    exact List.mem_filter.mpr ⟨hc, hfail⟩

/-- Witness for C6 (amended): a fail-fast run stops at a failing
`Deallocate` and never issues the following call; a `part_001` battery
with a failing `Start` still issues the whole battery and prints the
`Start` failure. -/
theorem c6_amended_witness :
    runFatal clFailStart
        ([Call.vmRestart resourceGroupName001 linuxVMname] ++
          Call.vmStart resourceGroupName001 linuxVMname ::
            [Call.vmPowerOff resourceGroupName001 linuxVMname]) =
      ([Call.vmRestart resourceGroupName001 linuxVMname,
        Call.vmStart resourceGroupName001 linuxVMname], false) ∧
    (vmOperations001 clFailStart vmSample linuxVMname).1 =
      batteryCalls resourceGroupName001 accountName001 linuxVMname vmSample ∧
    Call.vmStart resourceGroupName001 linuxVMname ∈
      (vmOperations001 clFailStart vmSample linuxVMname).2 :=
  ⟨c6_amended.1 clFailStart [Call.vmRestart resourceGroupName001 linuxVMname]
      (Call.vmStart resourceGroupName001 linuxVMname)
      [Call.vmPowerOff resourceGroupName001 linuxVMname]
      (by decide) (by decide),
   (c6_amended.2 clFailStart vmSample linuxVMname (by decide)).1,
   (c6_amended.2 clFailStart vmSample linuxVMname (by decide)).2
     (Call.vmStart resourceGroupName001 linuxVMname) (by decide) (by decide)⟩

/-! ## C3: missing environment variables -/

/-- Membership in `part_001`'s missing-variable list names exactly the
empty variables. -/
theorem mem_missingVars (env : EnvVars) (n : String) :
    n ∈ missingVars env ↔
      (n = "AZURE_CLIENT_ID" ∧ env.clientID = "") ∨
      (n = "AZURE_CLIENT_SECRET" ∧ env.clientSecret = "") ∨
      (n = "AZURE_SUBSCRIPTION_ID" ∧ env.subscriptionID = "") ∨
      (n = "AZURE_TENANT_ID" ∧ env.tenantID = "") := by
  unfold missingVars
  split_ifs <;> simp_all

/-- An environment with an empty tenant id. -/
def envMissingTenant : EnvVars :=
  { tenantID := "", clientID := "client-id", clientSecret := "client-secret",
    subscriptionID := "subscription-id" }

/-- An environment with an empty client id. -/
def envMissingClient : EnvVars :=
  { tenantID := "tenant-id", clientID := "", clientSecret := "client-secret",
    subscriptionID := "subscription-id" }

/-- A concrete run environment for witnesses. -/
def envSample : Env := { fetched := fun _ => vmSample, nicID := fun _ => "nic-ref" }

/-- C3 counterexample: in the `part_001` variant, with the tenant id
empty (and the other three variables set), the process prints a
diagnostic naming `AZURE_TENANT_ID` and issues no remote call, but
`main` returns normally — the exit code is `0`, not non-zero as the
claim states. -/
theorem c3_counterexample :
    envMissingTenant.tenantID = "" ∧
    (part001mainOutcome envMissingTenant envSample).exitCode = 0 ∧
    "AZURE_TENANT_ID" ∈ (part001mainOutcome envMissingTenant envSample).printedMissing ∧
    (part001mainOutcome envMissingTenant envSample).calls = [] := by
  refine ⟨rfl, ?_, ?_, ?_⟩ <;>
    simp [part001mainOutcome, checkEnvVar, missingVars, envMissingTenant, part001successCalls]

/-- The conclusion of the amended C3, as one predicate over the
environment. -/
def C3AmendedProp (env : EnvVars) (e : Env) : Prop :=
  (∃ name, name ∈ missingVars env ∧
      init000 env = Except.error (1, "Missing environment variable " ++ name) ∧
      part000run env e = Except.error (1, "Missing environment variable " ++ name)) ∧
  (part001mainOutcome env e).exitCode = 0 ∧
  (part001mainOutcome env e).printedMissing = missingVars env ∧
  missingVars env ≠ [] ∧
  (part001mainOutcome env e).calls = [] ∧
  (env.subscriptionID = "" →
    initExampleSubscriptionCheck env =
      Except.error (1, "Missing environment variable AZURE_SUBSCRIPTION_ID"))

/-- C3 (amended): if any of the four required environment variables is
empty, the process terminates before any remote call is attempted with
a diagnostic naming a missing variable; the exit code is `1` in the
variants that use `getEnvVarOrExit` (`example.go` for the subscription
id, `part_000` for all four), but in the `checkEnvVar` variant
(`part_001`) `main` prints the diagnostic and returns, so the process
exits with code `0`. -/
theorem c3_amended (env : EnvVars) (e : Env)
    (h : env.tenantID = "" ∨ env.clientID = "" ∨ env.clientSecret = "" ∨
      env.subscriptionID = "") :
    C3AmendedProp env e := by
  have h000 : ∃ name, name ∈ missingVars env ∧
      init000 env = Except.error (1, "Missing environment variable " ++ name) := by
    by_cases hs : env.subscriptionID = ""
    · exact ⟨"AZURE_SUBSCRIPTION_ID", by simp [mem_missingVars, hs], by simp [init000, hs]⟩
    · by_cases ht : env.tenantID = ""
      · exact ⟨"AZURE_TENANT_ID", by simp [mem_missingVars, ht], by simp [init000, hs, ht]⟩
      · by_cases hc : env.clientID = ""
        · exact ⟨"AZURE_CLIENT_ID", by simp [mem_missingVars, hc], by simp [init000, hs, ht, hc]⟩
        · have hcs : env.clientSecret = "" := by tauto
          exact ⟨"AZURE_CLIENT_SECRET", by simp [mem_missingVars, hcs],
            by simp [init000, hs, ht, hc, hcs]⟩
  obtain ⟨name, hmem, hinit⟩ := h000
  have hne : missingVars env ≠ [] := fun hnil => by rw [hnil] at hmem; cases hmem
  have hcheck : checkEnvVar env = some (missingVars env) := by simp [checkEnvVar, hne]
  refine ⟨⟨name, hmem, hinit, by simp [part000run, hinit, Except.map]⟩, ?_, ?_, hne, ?_, ?_⟩
  · simp [part001mainOutcome, hcheck]
  · simp [part001mainOutcome, hcheck]
  · simp [part001mainOutcome, hcheck]
  · intro hs
    simp [initExampleSubscriptionCheck, hs]

/-- Witness for C3 (amended) at an environment whose client id is
empty. -/
theorem c3_amended_witness :
    envMissingClient.clientID = "" ∧ C3AmendedProp envMissingClient envSample :=
  ⟨rfl, c3_amended envMissingClient envSample (Or.inr (Or.inl rfl))⟩

/-! ## Interleavings

`example.go`'s `main` runs the two per-VM goroutines between
`sync.WaitGroup` barriers; the set of possible call traces is the set
of order-preserving interleavings of the two goroutine traces within
each phase. -/

/-- `Interleaving u w t`: `t` is a shuffle of `u` and `w` that
preserves the order of each. -/
inductive Interleaving : List Call → List Call → List Call → Prop where
  | nil : Interleaving [] [] []
  | left {u w t : List Call} (x : Call) :
      Interleaving u w t → Interleaving (x :: u) w (x :: t)
  | right {u w t : List Call} (x : Call) :
      Interleaving u w t → Interleaving u (x :: w) (x :: t)

theorem Interleaving.eq_of_nil_right :
    ∀ {u w t : List Call}, Interleaving u w t → w = [] → t = u := by
  intro u w t h
  induction h with
  | nil => intro _; rfl
  | left x h ih => intro hw; rw [ih hw]
  | right x h ih => intro hw; cases hw

theorem Interleaving.refl_right (w : List Call) : Interleaving [] w w := by
  induction w with
  | nil => exact .nil
  | cons x xs ih => exact .right x ih

/-- Running the left task to completion first is one interleaving. -/
theorem Interleaving.append (u w : List Call) : Interleaving u w (u ++ w) := by
  induction u with
  | nil => simpa using Interleaving.refl_right w
  | cons x xs ih => exact .left x ih

theorem Interleaving.mem_or {u w t : List Call} (h : Interleaving u w t) {x : Call}
    (hx : x ∈ t) : x ∈ u ∨ x ∈ w := by
  induction h with
  | nil => cases hx
  | left y h ih =>
      rcases List.mem_cons.mp hx with rfl | hx2
      · exact Or.inl (List.mem_cons_self _ _)
      · rcases ih hx2 with h1 | h1
        · exact Or.inl (List.mem_cons_of_mem _ h1)
        · exact Or.inr h1
  | right y h ih =>
      rcases List.mem_cons.mp hx with rfl | hx2
      · exact Or.inr (List.mem_cons_self _ _)
      · rcases ih hx2 with h1 | h1
        · exact Or.inl h1
        · exact Or.inr (List.mem_cons_of_mem _ h1)

/-- Filtering commutes with interleaving. -/
theorem Interleaving.filter (p : Call → Bool) {u w t : List Call}
    (h : Interleaving u w t) :
    Interleaving (u.filter p) (w.filter p) (t.filter p) := by
  induction h with
  | nil => exact .nil
  | left x h ih =>
      by_cases hp : p x = true
      · simpa [List.filter_cons, hp] using Interleaving.left x ih
      · simpa [List.filter_cons, hp] using ih
  | right x h ih =>
      by_cases hp : p x = true
      · simpa [List.filter_cons, hp] using Interleaving.right x ih
      · simpa [List.filter_cons, hp] using ih

/-- If no element of the right task satisfies `p`, the `p`-projection
of any interleaving is the `p`-projection of the left task. -/
theorem Interleaving.filter_left (p : Call → Bool) {u w t : List Call}
    (h : Interleaving u w t) (hw : ∀ x ∈ w, p x = false) :
    t.filter p = u.filter p := by
  have h2 := h.filter p
  have hwnil : w.filter p = [] := by
    apply List.filter_eq_nil_iff.mpr
    intro a ha
    simp [hw a ha]
  rw [hwnil] at h2
  exact h2.eq_of_nil_right rfl

/-- All `P`-events of `t` occur strictly before all `Q`-events. -/
def SeparatedIn (t : List Call) (P Q : Call → Prop) : Prop :=
  ∀ i j, ∀ hi : i < t.length, ∀ hj : j < t.length, P t[i] → Q t[j] → i < j

/-- If `P`-events occur only in `u` and `Q`-events only in `w`, then in
`u ++ w` every `P`-event precedes every `Q`-event. -/
theorem separatedIn_append {P Q : Call → Prop} {u w : List Call}
    (hPw : ∀ x ∈ w, ¬ P x) (hQu : ∀ x ∈ u, ¬ Q x) :
    SeparatedIn (u ++ w) P Q := by
  intro i j hi hj hPi hQj
  have hiu : i < u.length := by
    by_contra hge
    push_neg at hge
    rw [List.getElem_append_right hge] at hPi
    exact hPw _ (List.getElem_mem _) hPi
  have hju : u.length ≤ j := by
    by_contra hlt
    push_neg at hlt
    rw [List.getElem_append_left hlt] at hQj
    exact hQu _ (List.getElem_mem _) hQj
  omega

/-! ## Call classifiers -/

/-- Calls of the per-VM operation battery: the `Get`, the
`CreateOrUpdate`s carrying a tagged payload (every battery resubmission
happens after `updateVM` set the tags on the shared object; the
creation `CreateOrUpdate` payload has no tags), and the power
operations. -/
def isOpsShape : Call → Bool
  | .vmGet _ _ => true
  | .vmCreateOrUpdate _ _ p => p.tags.isSome
  | .vmDeallocate _ _ => true
  | .vmStart _ _ => true
  | .vmRestart _ _ => true
  | .vmPowerOff _ _ => true
  | _ => false

/-- Calls of the per-VM provisioning phase (`createVM`): PIP and NIC
calls and the creation `CreateOrUpdate`, whose payload has no tags. -/
def isProvisionShape : Call → Bool
  | .pipCreateOrUpdate _ _ _ => true
  | .pipGet _ _ => true
  | .nicCreateOrUpdate _ _ => true
  | .nicGet _ _ => true
  | .vmCreateOrUpdate _ _ p => p.tags.isNone
  | _ => false

/-- Teardown calls: VM deletion and group deletion. -/
def isTeardownCall : Call → Bool
  | .vmDelete _ _ => true
  | .groupDelete _ => true
  | _ => false

/-- The four common-resource creation calls. -/
def isCoreCreate : Call → Bool
  | .groupCreateOrUpdate _ => true
  | .storageAccountCreate _ _ => true
  | .vnetCreateOrUpdate _ _ => true
  | .subnetCreateOrUpdate _ _ _ => true
  | _ => false

/-- The three creation calls of VM `v`: its public address, its network
interface, and the VM `CreateOrUpdate` with the untagged creation
payload. -/
def isCreateFor (v : String) : Call → Bool
  | .pipCreateOrUpdate _ ip _ => ip == "pip-" ++ v
  | .nicCreateOrUpdate _ n => n == "nic-" ++ v
  | .vmCreateOrUpdate _ n p => n == v && p.tags.isNone
  | _ => false

/-- The operation-battery calls of VM `v`. -/
def isBatteryCallFor (v : String) : Call → Bool
  | .vmGet _ n => n == v
  | .vmCreateOrUpdate _ n p => n == v && p.tags.isSome
  | .vmDeallocate _ n => n == v
  | .vmStart _ n => n == v
  | .vmRestart _ n => n == v
  | .vmPowerOff _ n => n == v
  | _ => false

/-! ## Shape facts about the traces of each program phase -/

theorem shape_setup (g account : String) :
    ∀ x ∈ createNeededResourcesCalls g account,
      isOpsShape x = false ∧ isProvisionShape x = false ∧ isTeardownCall x = false ∧
      (∀ v, isCreateFor v x = false) ∧ (∀ v, isBatteryCallFor v x = false) := by
  intro x hx
  simp only [createNeededResourcesCalls, List.mem_cons, List.not_mem_nil, or_false] at hx
  rcases hx with rfl | rfl | rfl | rfl | rfl <;>
    exact ⟨rfl, rfl, rfl, fun _ => rfl, fun _ => rfl⟩

theorem shape_batteryCalls (g account v : String) (vm0 : VirtualMachine) :
    ∀ x ∈ batteryCalls g account v vm0,
      isOpsShape x = true ∧ isProvisionShape x = false ∧ isTeardownCall x = false ∧
      isCoreCreate x = false ∧ (∀ u, isCreateFor u x = false) := by
  intro x hx
  simp only [batteryCalls, batteryOps, List.mem_cons, List.not_mem_nil, or_false] at hx
  rcases hx with rfl | rfl | rfl | rfl | rfl | rfl | rfl | rfl | rfl <;>
    simp [isOpsShape, isProvisionShape, isTeardownCall, isCoreCreate, isCreateFor,
      updateVMsubmit_tags, attach_tags, detach_tags, resizeSubmit_tags]

theorem shape_pipNic (g m lbl : String) :
    ∀ x ∈ pipNicCalls g m lbl,
      isOpsShape x = false ∧ isTeardownCall x = false ∧ isCoreCreate x = false ∧
      isProvisionShape x = true ∧ (∀ v, isBatteryCallFor v x = false) := by
  intro x hx
  simp only [pipNicCalls, List.mem_cons, List.not_mem_nil, or_false] at hx
  rcases hx with rfl | rfl | rfl | rfl <;>
    exact ⟨rfl, rfl, rfl, rfl, fun _ => rfl⟩

theorem shape_creationVM (g v sz account pub off sku nic : String) :
    isOpsShape (Call.vmCreateOrUpdate g v (setVMparameters sz account v pub off sku nic)) = false ∧
    isTeardownCall (Call.vmCreateOrUpdate g v (setVMparameters sz account v pub off sku nic)) = false ∧
    isCoreCreate (Call.vmCreateOrUpdate g v (setVMparameters sz account v pub off sku nic)) = false ∧
    isProvisionShape (Call.vmCreateOrUpdate g v (setVMparameters sz account v pub off sku nic)) = true ∧
    (∀ u, isBatteryCallFor u
        (Call.vmCreateOrUpdate g v (setVMparameters sz account v pub off sku nic)) = false) := by
  refine ⟨?_, rfl, rfl, ?_, ?_⟩ <;>
    simp [isOpsShape, isProvisionShape, isBatteryCallFor, setVMparameters_tags]

/-! ## The concurrent main of example.go -/

/-- The creation trace of the linux goroutine
(`createVM` at `example.go:66`). -/
def linuxCreateCalls (e : Env) : List Call :=
  (createVMcalls "Standard_DS1_v2" groupNameEx accountNameEx linuxVMname
    "Canonical" "UbuntuServer" "16.04.0-LTS" (e.nicID linuxVMname)).getD []

/-- The creation trace of the windows goroutine
(`createVM` at `example.go:67`). -/
def windowsCreateCalls (e : Env) : List Call :=
  (createVMcalls "Standard_DS1_v2" groupNameEx accountNameEx windowsVMname
    "MicrosoftWindowsServer" "WindowsServer" "2016-Datacenter" (e.nicID windowsVMname)).getD []

/-- The operation-battery trace of the linux goroutine
(`vmOperations` at `example.go:73`). -/
def linuxBatteryCalls (e : Env) : List Call :=
  batteryCalls groupNameEx accountNameEx linuxVMname (e.fetched linuxVMname)

/-- The operation-battery trace of the windows goroutine
(`vmOperations` at `example.go:74`). -/
def windowsBatteryCalls (e : Env) : List Call :=
  batteryCalls groupNameEx accountNameEx windowsVMname (e.fetched windowsVMname)

theorem linuxCreateCalls_eq (e : Env) :
    linuxCreateCalls e =
      pipNicCalls groupNameEx linuxVMname ("azuresample-" ++ (linuxVMname.take 5).toLower) ++
        [Call.vmCreateOrUpdate groupNameEx linuxVMname
          (setVMparameters "Standard_DS1_v2" accountNameEx linuxVMname
            "Canonical" "UbuntuServer" "16.04.0-LTS" (e.nicID linuxVMname))] := by
  have h5 : 5 ≤ linuxVMname.length := by decide
  simp [linuxCreateCalls, createVMcalls, createPIPandNICcalls, domainNameLabel, h5]

theorem windowsCreateCalls_eq (e : Env) :
    windowsCreateCalls e =
      pipNicCalls groupNameEx windowsVMname ("azuresample-" ++ (windowsVMname.take 5).toLower) ++
        [Call.vmCreateOrUpdate groupNameEx windowsVMname
          (setVMparameters "Standard_DS1_v2" accountNameEx windowsVMname
            "MicrosoftWindowsServer" "WindowsServer" "2016-Datacenter" (e.nicID windowsVMname))] := by
  have h5 : 5 ≤ windowsVMname.length := by decide
  simp [windowsCreateCalls, createVMcalls, createPIPandNICcalls, domainNameLabel, h5]

/-- The set of success-path call traces of `example.go`'s `main`
(`example.go:59-91`): the sequential setup; an interleaving of the two
`createVM` goroutines; the first `wg.Wait` barrier; an interleaving of
the two `vmOperations` goroutines; the second barrier; the listing; an
interleaving of the two `deleteVM` goroutines; the third barrier; the
explicit group deletion and the deferred group deletion from
`example.go:62`. -/
def MainTrace (e : Env) (t : List Call) : Prop :=
  ∃ a b c,
    Interleaving (linuxCreateCalls e) (windowsCreateCalls e) a ∧
    Interleaving (linuxBatteryCalls e) (windowsBatteryCalls e) b ∧
    Interleaving [Call.vmDelete groupNameEx linuxVMname]
      [Call.vmDelete groupNameEx windowsVMname] c ∧
    t = createNeededResourcesCalls groupNameEx accountNameEx ++ a ++ b ++
        [Call.vmListAll] ++ c ++
        [Call.groupDelete groupNameEx, Call.groupDelete groupNameEx]

/-- Shape facts for elements of the creation-phase interleaving. -/
theorem shape_createPhase (e : Env) {x : Call}
    (hx : x ∈ linuxCreateCalls e ∨ x ∈ windowsCreateCalls e) :
    isOpsShape x = false ∧ isTeardownCall x = false ∧ isCoreCreate x = false := by
  rw [linuxCreateCalls_eq, windowsCreateCalls_eq] at hx
  rcases hx with hx | hx <;>
  · rcases List.mem_append.mp hx with hp | hc
    · obtain ⟨h1, h2, h3, _, _⟩ := shape_pipNic _ _ _ x hp
      exact ⟨h1, h2, h3⟩
    · rw [List.mem_singleton.mp hc]
      obtain ⟨h1, h2, h3, _, _⟩ := shape_creationVM _ _ _ _ _ _ _ _
      exact ⟨h1, h2, h3⟩

/-- Shape facts for elements of the battery-phase interleaving. -/
theorem shape_opsPhase (e : Env) {x : Call}
    (hx : x ∈ linuxBatteryCalls e ∨ x ∈ windowsBatteryCalls e) :
    isOpsShape x = true ∧ isProvisionShape x = false ∧ isTeardownCall x = false ∧
    isCoreCreate x = false := by
  rcases hx with hx | hx <;>
  · obtain ⟨h1, h2, h3, h4, _⟩ := shape_batteryCalls _ _ _ _ x hx
    exact ⟨h1, h2, h3, h4⟩

/-- The two barrier-separation properties of the concurrent variant:
every provisioning event precedes every battery event, and every
battery event precedes every teardown event. -/
def ProvisionBeforeOpsBeforeTeardown (t : List Call) : Prop :=
  SeparatedIn t (fun c => isProvisionShape c = true) (fun c => isOpsShape c = true) ∧
  SeparatedIn t (fun c => isOpsShape c = true) (fun c => isTeardownCall c = true)

/-- C7: in every possible trace of the concurrent variant, both VM
pipelines reach the created state (all provisioning events, including
the two VM-creation `CreateOrUpdate`s) before either pipeline begins
its operation battery, and both operation batteries complete before
teardown (VM deletion and group deletion) begins. -/
theorem c7_join_barriers (e : Env) (t : List Call) (h : MainTrace e t) :
    ProvisionBeforeOpsBeforeTeardown t := by
  obtain ⟨a, b, c, ha, hb, hc, rfl⟩ := h
  constructor
  · have hshape :
        createNeededResourcesCalls groupNameEx accountNameEx ++ a ++ b ++
          [Call.vmListAll] ++ c ++
          [Call.groupDelete groupNameEx, Call.groupDelete groupNameEx] =
        (createNeededResourcesCalls groupNameEx accountNameEx ++ a) ++
          (b ++ [Call.vmListAll] ++ c ++
            [Call.groupDelete groupNameEx, Call.groupDelete groupNameEx]) := by
      simp [List.append_assoc]
    rw [hshape]
    apply separatedIn_append
    · intro x hx hP
      rcases List.mem_append.mp hx with hx | hx
      · rcases List.mem_append.mp hx with hx | hx
        · rcases List.mem_append.mp hx with hx | hx
          · exact absurd hP (by simp [(shape_opsPhase e (hb.mem_or hx)).2.1])
          · rw [List.mem_singleton.mp hx] at hP
            exact absurd hP (by simp [isProvisionShape])
        · rcases hc.mem_or hx with hx | hx <;>
          · rw [List.mem_singleton.mp hx] at hP
            exact absurd hP (by simp [isProvisionShape])
      · simp only [List.mem_cons, List.not_mem_nil, or_false] at hx
        rcases hx with rfl | rfl <;> exact absurd hP (by simp [isProvisionShape])
    · intro x hx hQ
      rcases List.mem_append.mp hx with hx | hx
      · exact absurd hQ (by simp [(shape_setup _ _ x hx).1])
      · exact absurd hQ (by simp [(shape_createPhase e (ha.mem_or hx)).1])
  · have hshape :
        createNeededResourcesCalls groupNameEx accountNameEx ++ a ++ b ++
          [Call.vmListAll] ++ c ++
          [Call.groupDelete groupNameEx, Call.groupDelete groupNameEx] =
        (createNeededResourcesCalls groupNameEx accountNameEx ++ a ++ b ++
          [Call.vmListAll]) ++
          (c ++ [Call.groupDelete groupNameEx, Call.groupDelete groupNameEx]) := by
      simp [List.append_assoc]
    rw [hshape]
    apply separatedIn_append
    · intro x hx hP
      rcases List.mem_append.mp hx with hx | hx
      · rcases hc.mem_or hx with hx | hx <;>
        · rw [List.mem_singleton.mp hx] at hP
          exact absurd hP (by simp [isOpsShape])
      · simp only [List.mem_cons, List.not_mem_nil, or_false] at hx
        rcases hx with rfl | rfl <;> exact absurd hP (by simp [isOpsShape])
    · intro x hx hQ
      rcases List.mem_append.mp hx with hx | hx
      · rcases List.mem_append.mp hx with hx | hx
        · rcases List.mem_append.mp hx with hx | hx
          · exact absurd hQ (by simp [(shape_setup _ _ x hx).2.2.1])
          · exact absurd hQ (by simp [(shape_createPhase e (ha.mem_or hx)).2.1])
        · exact absurd hQ (by simp [(shape_opsPhase e (hb.mem_or hx)).2.2.1])
      · rw [List.mem_singleton.mp hx] at hQ
        exact absurd hQ (by simp [isTeardownCall])

/-- The fully sequential schedule (each goroutine pair runs
left-then-right) is one possible trace of `main`. -/
def mainTraceSeq (e : Env) : List Call :=
  createNeededResourcesCalls groupNameEx accountNameEx ++
    (linuxCreateCalls e ++ windowsCreateCalls e) ++
    (linuxBatteryCalls e ++ windowsBatteryCalls e) ++
    [Call.vmListAll] ++
    ([Call.vmDelete groupNameEx linuxVMname] ++ [Call.vmDelete groupNameEx windowsVMname]) ++
    [Call.groupDelete groupNameEx, Call.groupDelete groupNameEx]

theorem mainTraceSeq_is_main (e : Env) : MainTrace e (mainTraceSeq e) :=
  ⟨_, _, _, Interleaving.append _ _, Interleaving.append _ _, Interleaving.append _ _, rfl⟩

/-- Witness for C7 at the sequential schedule. -/
theorem c7_join_barriers_witness :
    MainTrace envSample (mainTraceSeq envSample) ∧
    ProvisionBeforeOpsBeforeTeardown (mainTraceSeq envSample) :=
  ⟨mainTraceSeq_is_main envSample,
   c7_join_barriers envSample (mainTraceSeq envSample) (mainTraceSeq_is_main envSample)⟩

/-! ## C4 and C5: creation order and battery order -/

theorem createFor_createPhase_linux (e : Env) :
    ∀ x ∈ windowsCreateCalls e, isCreateFor linuxVMname x = false := by
  rw [windowsCreateCalls_eq]
  intro x hx
  simp only [pipNicCalls, List.cons_append, List.nil_append, List.mem_cons,
    List.not_mem_nil, or_false] at hx
  rcases hx with rfl | rfl | rfl | rfl | rfl
  · decide
  · rfl
  · decide
  · rfl
  · simp [isCreateFor, show (windowsVMname == linuxVMname) = false from by decide]

theorem createFor_createPhase_windows (e : Env) :
    ∀ x ∈ linuxCreateCalls e, isCreateFor windowsVMname x = false := by
  rw [linuxCreateCalls_eq]
  intro x hx
  simp only [pipNicCalls, List.cons_append, List.nil_append, List.mem_cons,
    List.not_mem_nil, or_false] at hx
  rcases hx with rfl | rfl | rfl | rfl | rfl
  · decide
  · rfl
  · decide
  · rfl
  · simp [isCreateFor, show (linuxVMname == windowsVMname) = false from by decide]

theorem filter_createFor_linux (e : Env) :
    (linuxCreateCalls e).filter (isCreateFor linuxVMname) =
      [Call.pipCreateOrUpdate groupNameEx ("pip-" ++ linuxVMname)
          ("azuresample-" ++ (linuxVMname.take 5).toLower),
       Call.nicCreateOrUpdate groupNameEx ("nic-" ++ linuxVMname),
       Call.vmCreateOrUpdate groupNameEx linuxVMname
         (setVMparameters "Standard_DS1_v2" accountNameEx linuxVMname
           "Canonical" "UbuntuServer" "16.04.0-LTS" (e.nicID linuxVMname))] := by
  rw [linuxCreateCalls_eq]
  simp [pipNicCalls, List.filter_cons, isCreateFor, setVMparameters_tags]

theorem filter_createFor_windows (e : Env) :
    (windowsCreateCalls e).filter (isCreateFor windowsVMname) =
      [Call.pipCreateOrUpdate groupNameEx ("pip-" ++ windowsVMname)
          ("azuresample-" ++ (windowsVMname.take 5).toLower),
       Call.nicCreateOrUpdate groupNameEx ("nic-" ++ windowsVMname),
       Call.vmCreateOrUpdate groupNameEx windowsVMname
         (setVMparameters "Standard_DS1_v2" accountNameEx windowsVMname
           "MicrosoftWindowsServer" "WindowsServer" "2016-Datacenter" (e.nicID windowsVMname))] := by
  rw [windowsCreateCalls_eq]
  simp [pipNicCalls, List.filter_cons, isCreateFor, setVMparameters_tags]

theorem batteryFor_self (g account v : String) (vm0 : VirtualMachine) :
    (batteryCalls g account v vm0).filter (isBatteryCallFor v) =
      batteryCalls g account v vm0 := by
  rw [List.filter_eq_self]
  intro x hx
  simp only [batteryCalls, batteryOps, List.mem_cons, List.not_mem_nil, or_false] at hx
  rcases hx with rfl | rfl | rfl | rfl | rfl | rfl | rfl | rfl | rfl <;>
    simp [isBatteryCallFor, updateVMsubmit_tags, attach_tags, detach_tags, resizeSubmit_tags]

theorem batteryFor_mismatch (g account u v : String) (huv : (u == v) = false)
    (vm0 : VirtualMachine) :
    ∀ x ∈ batteryCalls g account u vm0, isBatteryCallFor v x = false := by
  intro x hx
  simp only [batteryCalls, batteryOps, List.mem_cons, List.not_mem_nil, or_false] at hx
  rcases hx with rfl | rfl | rfl | rfl | rfl | rfl | rfl | rfl | rfl <;>
    simp [isBatteryCallFor, huv]

theorem batteryFor_createPhase (e : Env) (v : String) :
    ∀ x, (x ∈ linuxCreateCalls e ∨ x ∈ windowsCreateCalls e) →
      isBatteryCallFor v x = false := by
  intro x hx
  rw [linuxCreateCalls_eq, windowsCreateCalls_eq] at hx
  rcases hx with hx | hx <;>
  · rcases List.mem_append.mp hx with hp | hcx
    · exact (shape_pipNic _ _ _ x hp).2.2.2.2 v
    · rw [List.mem_singleton.mp hcx]
      exact (shape_creationVM _ _ _ _ _ _ _ _).2.2.2.2 v

theorem createFor_opsPhase (e : Env) (v : String) :
    ∀ x, (x ∈ linuxBatteryCalls e ∨ x ∈ windowsBatteryCalls e) →
      isCreateFor v x = false := by
  intro x hx
  rcases hx with hx | hx <;> exact (shape_batteryCalls _ _ _ _ x hx).2.2.2.2 v

theorem Interleaving.eq_of_nil_left :
    ∀ {u w t : List Call}, Interleaving u w t → u = [] → t = w := by
  intro u w t h
  induction h with
  | nil => intro _; rfl
  | left x h ih => intro hu; cases hu
  | right x h ih => intro hu; rw [ih hu]

/-- If no element of the left task satisfies `p`, the `p`-projection of
any interleaving is the `p`-projection of the right task. -/
theorem Interleaving.filter_right (p : Call → Bool) {u w t : List Call}
    (h : Interleaving u w t) (hu : ∀ x ∈ u, p x = false) :
    t.filter p = w.filter p := by
  have h2 := h.filter p
  have hunil : u.filter p = [] := by
    apply List.filter_eq_nil_iff.mpr
    intro a ha
    simp [hu a ha]
  rw [hunil] at h2
  exact h2.eq_of_nil_left rfl

theorem filter_core_setup (g account : String) :
    (createNeededResourcesCalls g account).filter isCoreCreate =
      [Call.groupCreateOrUpdate g, Call.storageAccountCreate g account,
       Call.vnetCreateOrUpdate g "vNet", Call.subnetCreateOrUpdate g "vNet" "subnet"] := by
  simp [createNeededResourcesCalls, List.filter_cons, isCoreCreate]

/-- The creation-order property of C4 over a trace `t`: the projection
of `t` to the four common-resource creations is exactly group, storage
account, network, subnet in that order; the projection to each VM's
creations is exactly address, interface, VM in that order; and every
common-resource creation precedes every per-VM creation. -/
def C4Prop (e : Env) (t : List Call) : Prop :=
  t.filter isCoreCreate =
    [Call.groupCreateOrUpdate groupNameEx,
     Call.storageAccountCreate groupNameEx accountNameEx,
     Call.vnetCreateOrUpdate groupNameEx "vNet",
     Call.subnetCreateOrUpdate groupNameEx "vNet" "subnet"] ∧
  t.filter (isCreateFor linuxVMname) =
    [Call.pipCreateOrUpdate groupNameEx ("pip-" ++ linuxVMname)
        ("azuresample-" ++ (linuxVMname.take 5).toLower),
     Call.nicCreateOrUpdate groupNameEx ("nic-" ++ linuxVMname),
     Call.vmCreateOrUpdate groupNameEx linuxVMname
       (setVMparameters "Standard_DS1_v2" accountNameEx linuxVMname
         "Canonical" "UbuntuServer" "16.04.0-LTS" (e.nicID linuxVMname))] ∧
  t.filter (isCreateFor windowsVMname) =
    [Call.pipCreateOrUpdate groupNameEx ("pip-" ++ windowsVMname)
        ("azuresample-" ++ (windowsVMname.take 5).toLower),
     Call.nicCreateOrUpdate groupNameEx ("nic-" ++ windowsVMname),
     Call.vmCreateOrUpdate groupNameEx windowsVMname
       (setVMparameters "Standard_DS1_v2" accountNameEx windowsVMname
         "MicrosoftWindowsServer" "WindowsServer" "2016-Datacenter" (e.nicID windowsVMname))] ∧
  SeparatedIn t (fun x => isCoreCreate x = true)
    (fun x => isCreateFor linuxVMname x = true ∨ isCreateFor windowsVMname x = true)

/-- C4: in every possible trace of `example.go`'s `main`, the resource
creation calls occur in the fixed order — resource group, storage
account, virtual network, subnet, and then for each VM its public
address, network interface and VM in that order, all per-VM creations
after all common creations; no creation call is reordered or skipped. -/
theorem c4_creation_order (e : Env) (t : List Call) (h : MainTrace e t) : C4Prop e t := by
  obtain ⟨a, b, c, ha, hb, hc, rfl⟩ := h
  have hanil : ∀ {p : Call → Bool},
      (∀ x ∈ linuxCreateCalls e, p x = false) →
      (∀ x ∈ windowsCreateCalls e, p x = false) → a.filter p = [] := by
    intro p h1 h2
    apply List.filter_eq_nil_iff.mpr
    intro x hx
    rcases ha.mem_or hx with hm | hm
    · simp [h1 x hm]
    · simp [h2 x hm]
  have hbnil : ∀ {p : Call → Bool},
      (∀ x ∈ linuxBatteryCalls e, p x = false) →
      (∀ x ∈ windowsBatteryCalls e, p x = false) → b.filter p = [] := by
    intro p h1 h2
    apply List.filter_eq_nil_iff.mpr
    intro x hx
    rcases hb.mem_or hx with hm | hm
    · simp [h1 x hm]
    · simp [h2 x hm]
  have hcnil : ∀ {p : Call → Bool},
      p (Call.vmDelete groupNameEx linuxVMname) = false →
      p (Call.vmDelete groupNameEx windowsVMname) = false → c.filter p = [] := by
    intro p h1 h2
    apply List.filter_eq_nil_iff.mpr
    intro x hx
    rcases hc.mem_or hx with hm | hm <;> rw [List.mem_singleton.mp hm] <;> simp [h1, h2]
  refine ⟨?_, ?_, ?_, ?_⟩
  · have h2 : a.filter isCoreCreate = [] :=
      hanil (fun x hx => (shape_createPhase e (Or.inl hx)).2.2)
        (fun x hx => (shape_createPhase e (Or.inr hx)).2.2)
    have h3 : b.filter isCoreCreate = [] :=
      hbnil (fun x hx => (shape_batteryCalls _ _ _ _ x hx).2.2.2.1)
        (fun x hx => (shape_batteryCalls _ _ _ _ x hx).2.2.2.1)
    have h4 : c.filter isCoreCreate = [] := hcnil rfl rfl
    simp [List.filter_append, filter_core_setup, h2, h3, h4, List.filter_cons, isCoreCreate]
  · have h1 : (createNeededResourcesCalls groupNameEx accountNameEx).filter
        (isCreateFor linuxVMname) = [] := by
      apply List.filter_eq_nil_iff.mpr
      intro x hx
      simp [(shape_setup _ _ x hx).2.2.2.1 linuxVMname]
    have h2 : a.filter (isCreateFor linuxVMname) =
        (linuxCreateCalls e).filter (isCreateFor linuxVMname) :=
      ha.filter_left _ (createFor_createPhase_linux e)
    have h3 : b.filter (isCreateFor linuxVMname) = [] :=
      hbnil (fun x hx => createFor_opsPhase e linuxVMname x (Or.inl hx))
        (fun x hx => createFor_opsPhase e linuxVMname x (Or.inr hx))
    have h4 : c.filter (isCreateFor linuxVMname) = [] := hcnil rfl rfl
    simp [List.filter_append, h1, h2, h3, h4, filter_createFor_linux,
      List.filter_cons, isCreateFor]
  · have h1 : (createNeededResourcesCalls groupNameEx accountNameEx).filter
        (isCreateFor windowsVMname) = [] := by
      apply List.filter_eq_nil_iff.mpr
      intro x hx
      simp [(shape_setup _ _ x hx).2.2.2.1 windowsVMname]
    have h2 : a.filter (isCreateFor windowsVMname) =
        (windowsCreateCalls e).filter (isCreateFor windowsVMname) :=
      ha.filter_right _ (createFor_createPhase_windows e)
    have h3 : b.filter (isCreateFor windowsVMname) = [] :=
      hbnil (fun x hx => createFor_opsPhase e windowsVMname x (Or.inl hx))
        (fun x hx => createFor_opsPhase e windowsVMname x (Or.inr hx))
    have h4 : c.filter (isCreateFor windowsVMname) = [] := hcnil rfl rfl
    simp [List.filter_append, h1, h2, h3, h4, filter_createFor_windows,
      List.filter_cons, isCreateFor]
  · have hshape :
        createNeededResourcesCalls groupNameEx accountNameEx ++ a ++ b ++
          [Call.vmListAll] ++ c ++
          [Call.groupDelete groupNameEx, Call.groupDelete groupNameEx] =
        createNeededResourcesCalls groupNameEx accountNameEx ++
          (a ++ (b ++ ([Call.vmListAll] ++ (c ++
            [Call.groupDelete groupNameEx, Call.groupDelete groupNameEx])))) := by
      simp [List.append_assoc]
    rw [hshape]
    apply separatedIn_append
    · intro x hx hP
      rcases List.mem_append.mp hx with hx | hx
      · exact absurd hP (by simp [(shape_createPhase e (ha.mem_or hx)).2.2])
      rcases List.mem_append.mp hx with hx | hx
      · exact absurd hP (by simp [(shape_opsPhase e (hb.mem_or hx)).2.2.2])
      rcases List.mem_append.mp hx with hx | hx
      · rw [List.mem_singleton.mp hx] at hP
        exact absurd hP (by simp [isCoreCreate])
      rcases List.mem_append.mp hx with hx | hx
      · rcases hc.mem_or hx with hm | hm <;>
        · rw [List.mem_singleton.mp hm] at hP
          exact absurd hP (by simp [isCoreCreate])
      · simp only [List.mem_cons, List.not_mem_nil, or_false] at hx
        rcases hx with rfl | rfl <;> exact absurd hP (by simp [isCoreCreate])
    · intro x hx hQ
      rcases hQ with hQ | hQ <;>
        exact absurd hQ (by simp [(shape_setup _ _ x hx).2.2.2.1 _])

/-- Witness for C4 at the sequential schedule. -/
theorem c4_creation_order_witness :
    MainTrace envSample (mainTraceSeq envSample) ∧
    C4Prop envSample (mainTraceSeq envSample) :=
  ⟨mainTraceSeq_is_main envSample,
   c4_creation_order envSample (mainTraceSeq envSample) (mainTraceSeq_is_main envSample)⟩

/-- The battery-order property of C5 over a trace `t`: the projection
of `t` to each VM's battery calls is exactly that VM's fixed battery —
get, tag, attach, detach, deallocate-and-resize, start, restart,
stop — in order. -/
def C5Prop (e : Env) (t : List Call) : Prop :=
  t.filter (isBatteryCallFor linuxVMname) = linuxBatteryCalls e ∧
  t.filter (isBatteryCallFor windowsVMname) = windowsBatteryCalls e

/-- C5: in every possible trace of `example.go`'s `main`, each VM's
operation battery runs in the fixed order get, tag, attach data disk,
detach data disks, OS-disk resize (deallocate + resubmit), start,
restart, stop (first conjunct; the model has no configuration
parameter, so nothing can skip or reorder the battery); in `part_001`
the same fixed battery is issued whenever the initial `Get` succeeds,
for any client (second conjunct). -/
theorem c5_battery_order :
    (∀ (e : Env) (t : List Call), MainTrace e t → C5Prop e t) ∧
    (∀ (cl : Client) (vm0 : VirtualMachine) (v : String),
        cl.fails (Call.vmGet resourceGroupName001 v) = false →
        (vmOperations001 cl vm0 v).1 =
          batteryCalls resourceGroupName001 accountName001 v vm0) := by
  constructor
  · intro e t h
    obtain ⟨a, b, c, ha, hb, hc, rfl⟩ := h
    have hcnil : ∀ {p : Call → Bool},
        p (Call.vmDelete groupNameEx linuxVMname) = false →
        p (Call.vmDelete groupNameEx windowsVMname) = false → c.filter p = [] := by
      intro p h1 h2
      apply List.filter_eq_nil_iff.mpr
      intro x hx
      rcases hc.mem_or hx with hm | hm <;> rw [List.mem_singleton.mp hm] <;> simp [h1, h2]
    constructor
    · have h1 : (createNeededResourcesCalls groupNameEx accountNameEx).filter
          (isBatteryCallFor linuxVMname) = [] := by
        apply List.filter_eq_nil_iff.mpr
        intro x hx
        simp [(shape_setup _ _ x hx).2.2.2.2 linuxVMname]
      have h2 : a.filter (isBatteryCallFor linuxVMname) = [] := by
        apply List.filter_eq_nil_iff.mpr
        intro x hx
        simp [batteryFor_createPhase e linuxVMname x (ha.mem_or hx)]
      have h3 : b.filter (isBatteryCallFor linuxVMname) = linuxBatteryCalls e := by
        rw [hb.filter_left _
          (batteryFor_mismatch groupNameEx accountNameEx windowsVMname linuxVMname
            (by decide) (e.fetched windowsVMname))]
        exact batteryFor_self groupNameEx accountNameEx linuxVMname (e.fetched linuxVMname)
      have h4 : c.filter (isBatteryCallFor linuxVMname) = [] := hcnil rfl rfl
      simp [List.filter_append, h1, h2, h3, h4, List.filter_cons, isBatteryCallFor]
    · have h1 : (createNeededResourcesCalls groupNameEx accountNameEx).filter
          (isBatteryCallFor windowsVMname) = [] := by
        apply List.filter_eq_nil_iff.mpr
        intro x hx
        simp [(shape_setup _ _ x hx).2.2.2.2 windowsVMname]
      have h2 : a.filter (isBatteryCallFor windowsVMname) = [] := by
        apply List.filter_eq_nil_iff.mpr
        intro x hx
        simp [batteryFor_createPhase e windowsVMname x (ha.mem_or hx)]
      have h3 : b.filter (isBatteryCallFor windowsVMname) = windowsBatteryCalls e := by
        rw [hb.filter_right _
          (batteryFor_mismatch groupNameEx accountNameEx linuxVMname windowsVMname
            (by decide) (e.fetched linuxVMname))]
        exact batteryFor_self groupNameEx accountNameEx windowsVMname (e.fetched windowsVMname)
      have h4 : c.filter (isBatteryCallFor windowsVMname) = [] := hcnil rfl rfl
      simp [List.filter_append, h1, h2, h3, h4, List.filter_cons, isBatteryCallFor]
  · intro cl vm0 v hget
    simp [vmOperations001, hget, batteryCalls]

/-- Witness for C5 at the sequential schedule and the always-succeeding
client. -/
theorem c5_battery_order_witness :
    (MainTrace envSample (mainTraceSeq envSample) ∧
      C5Prop envSample (mainTraceSeq envSample)) ∧
    (clOK.fails (Call.vmGet resourceGroupName001 linuxVMname) = false ∧
      (vmOperations001 clOK vmSample linuxVMname).1 =
        batteryCalls resourceGroupName001 accountName001 linuxVMname vmSample) :=
  ⟨⟨mainTraceSeq_is_main envSample,
    c5_battery_order.1 envSample (mainTraceSeq envSample) (mainTraceSeq_is_main envSample)⟩,
   rfl, c5_battery_order.2 clOK vmSample linuxVMname rfl⟩

end AzureVMSample
